import Mathlib

/-!
Shallow embedding of the joint command pipeline of the robot-arm-app
repository.  The primary controller variant lives in
`src/hooks/use-robot-controller.tsx` (smoothing loop, 100 ms rate limit);
an older direct-send variant is `src/unnamed/part_000` (no smoothing,
50 ms rate limit).  Angles and epoch-millisecond times are modelled as
rationals; JavaScript's `Number(x.toFixed(1))` is modelled as rounding
to the nearest tenth (ties up), and a value that is `undefined`/non-finite
at runtime is modelled as `Option.none`.
-/

/-- The six joint identifiers (`JointId` in the source). -/
inductive Joint where
  | base
  | armA
  | armB
  | wristA
  | wristB
  | gripper
deriving DecidableEq

/-- A total record with one value per joint (`Record<JointId, T>`). -/
structure JointMap (α : Type) where
  base : α
  armA : α
  armB : α
  wristA : α
  wristB : α
  gripper : α
deriving DecidableEq

def JointMap.get {α : Type} (m : JointMap α) : Joint → α
  | .base => m.base
  | .armA => m.armA
  | .armB => m.armB
  | .wristA => m.wristA
  | .wristB => m.wristB
  | .gripper => m.gripper

def JointMap.set {α : Type} (m : JointMap α) (j : Joint) (v : α) : JointMap α :=
  match j with
  | .base => { m with base := v }
  | .armA => { m with armA := v }
  | .armB => { m with armB := v }
  | .wristA => { m with wristA := v }
  | .wristB => { m with wristB := v }
  | .gripper => { m with gripper := v }

/-- Build a joint map from a function (models the `JOINTS.forEach` loops
that fill a fresh `next` object with one entry per joint). -/
def JointMap.build {α : Type} (f : Joint → α) : JointMap α :=
  ⟨f .base, f .armA, f .armB, f .wristA, f .wristB, f .gripper⟩

/-- The `JOINTS` constant: the iteration order of the six joints. -/
def JOINTS : List Joint := [.base, .armA, .armB, .wristA, .wristB, .gripper]

/-- `JointAngles`: a complete numeric pose. -/
abbrev JointAngles := JointMap ℚ

/-- `JointConfig` from the source. -/
structure JointConfig where
  label : String
  min : ℚ
  max : ℚ
  home : ℚ
deriving DecidableEq

abbrev Configs := JointMap JointConfig

/-- `Partial<JointConfig>`: each field optionally present. -/
structure ConfigPatch where
  label : Option String
  min : Option ℚ
  max : Option ℚ
  home : Option ℚ
deriving DecidableEq

/-- `clamp(value, min, max) = Math.min(Math.max(value, min), max)`. -/
def clamp (value lo hi : ℚ) : ℚ := min (max value lo) hi

/-- `Number(x.toFixed(1))`: round to one decimal place. -/
def round1 (x : ℚ) : ℚ := ((round (10 * x) : ℤ) : ℚ) / 10

/-- `ConnectionStatus` from the source. -/
inductive ConnStatus where
  | disconnected
  | connecting
  | connected
  | error
  | reconnecting
deriving DecidableEq

/-- One waypoint of a program payload. -/
structure Waypoint where
  t : ℚ
  joints : JointAngles
deriving DecidableEq

/-- `ProgramRunPayload` from the source. -/
structure ProgramRunPayload where
  id : String
  name : String
  waypoints : List Waypoint
deriving DecidableEq

/-- Messages written to the WebSocket transport. -/
inductive Msg where
  | pose (angles : JointAngles) (timestamp : ℚ)
  | program (prog : ProgramRunPayload) (requestedAt : ℚ)
  | emergencyStop
deriving DecidableEq

/-- The controller state of the smoothing variant
(`src/hooks/use-robot-controller.tsx`): React state plus the mutable
refs that drive the pipeline.  `hasSocket` models
`socketRef.current !== null` and `sendOk` models whether
`socket.send` succeeds (it throws otherwise). -/
structure CtrlState where
  jointConfigs : Configs
  jointAngles : JointAngles
  desiredAngles : JointAngles
  smoothedAngles : JointAngles
  isEmergencyStopped : Bool
  connectionStatus : ConnStatus
  hasSocket : Bool
  sendOk : Bool
  lastSend : ℚ
  lastPayload : Option Msg
  smoothingEnabled : Bool
  smoothingFactor : ℚ
  gyroEnabled : Bool
deriving DecidableEq

/-- `setJointConfig` (identical in both variants): normalize min/max
ordering, clamp home, and store (the spread order puts the derived
`min`, `max`, `home` last, so they win over the raw patch fields). -/
def setJointConfig (cfgs : Configs) (j : Joint) (patch : ConfigPatch) : Configs :=
  let existing := cfgs.get j
  let rawMin := patch.min.getD existing.min
  let rawMax := patch.max.getD existing.max
  let lo := min rawMin rawMax
  let hi := max rawMin rawMax
  let home := clamp (patch.home.getD existing.home) lo hi
  cfgs.set j { label := patch.label.getD existing.label, min := lo, max := hi, home := home }

/-- `updateJoint` of the smoothing variant: clamp, round to one decimal,
store as the new desired target and in the UI-facing state. -/
def updateJoint (s : CtrlState) (j : Joint) (angle : ℚ) : CtrlState :=
  let config := s.jointConfigs.get j
  let limited := clamp angle config.min config.max
  let rounded := round1 limited
  { s with
    desiredAngles := s.desiredAngles.set j rounded
    jointAngles := s.jointAngles.set j rounded }

/-- `goToPose` of the smoothing variant: per joint,
`Number.isFinite(Number(pose[joint]))` selects the provided value,
otherwise the existing desired value; then clamp and round. -/
def goToPose (s : CtrlState) (pose : JointMap (Option ℚ)) : CtrlState :=
  let next : JointAngles := JointMap.build fun j =>
    let config := s.jointConfigs.get j
    let v := (pose.get j).getD (s.desiredAngles.get j)
    round1 (clamp v config.min config.max)
  { s with desiredAngles := next, jointAngles := next }

/-- `sendPayload` of the smoothing variant: blocked while emergency
stopped, rate-limited to one send per 100 ms, records the payload,
and writes to the socket only while connected; a throwing send is
caught and turns the status to `error`. -/
def sendPayload (s : CtrlState) (angles : JointAngles) (now : ℚ) : CtrlState × List Msg :=
  if s.isEmergencyStopped = true then (s, [])
  else if now - s.lastSend < 100 then (s, [])
  else
    let payload := Msg.pose angles now
    let s1 := { s with lastSend := now, lastPayload := some payload }
    if s1.hasSocket = true ∧ s1.connectionStatus = ConnStatus.connected then
      if s1.sendOk = true then (s1, [payload])
      else ({ s1 with connectionStatus := ConnStatus.error }, [])
    else (s1, [])

/-- One joint of the smoothing-loop interval callback: snap when closer
than 0.01, else exponential smoothing (with `toFixed(1)` rounding) when
enabled with factor < 1, else jump to the target. -/
def tickJoint (smoothingEnabled : Bool) (smoothingFactor target current : ℚ) : ℚ :=
  let diff := target - current
  if |diff| < 1 / 100 then target
  else if smoothingEnabled = true ∧ smoothingFactor < 1 then
    round1 (current + diff * smoothingFactor)
  else target

/-- Iterate the smoothing tick on one joint with a fixed desired target. -/
def tickIter (smoothingEnabled : Bool) (smoothingFactor target : ℚ) : ℕ → ℚ → ℚ
  | 0, current => current
  | n + 1, current =>
      tickIter smoothingEnabled smoothingFactor target n
        (tickJoint smoothingEnabled smoothingFactor target current)

/-- The smoothing-loop interval callback of the smoothing variant:
returns immediately while emergency stopped; otherwise computes the
next smoothed pose per joint, stores it, and sends it when some joint
moved by more than 0.01. -/
def smoothTick (s : CtrlState) (now : ℚ) : CtrlState × List Msg :=
  if s.isEmergencyStopped = true then (s, [])
  else
    let next : JointAngles := JointMap.build fun j =>
      tickJoint s.smoothingEnabled s.smoothingFactor
        (s.desiredAngles.get j) (s.smoothedAngles.get j)
    let s1 := { s with smoothedAngles := next }
    if JOINTS.any fun j => decide (1 / 100 < |next.get j - s.smoothedAngles.get j|) then
      sendPayload s1 next now
    else (s1, [])

/-- `emergencyStop` of the smoothing variant: best-effort stop message
(failure ignored), gyro force-disabled, interlock set, and both refs
snapped to the current UI pose. -/
def emergencyStop (s : CtrlState) : CtrlState × List Msg :=
  let msgs : List Msg :=
    if s.hasSocket = true ∧ s.connectionStatus = ConnStatus.connected then
      if s.sendOk = true then [Msg.emergencyStop] else []
    else []
  ({ s with
      gyroEnabled := false
      isEmergencyStopped := true
      desiredAngles := s.jointAngles
      smoothedAngles := s.jointAngles }, msgs)

/-- `resumeAfterStop` of the smoothing variant: clears the interlock,
re-syncs both refs to the UI pose, and (when connected) sends the
current pose directly on the socket, bypassing `sendPayload`'s rate
limit; a throwing send turns the status to `error`. -/
def resumeAfterStop (s : CtrlState) (now : ℚ) : CtrlState × List Msg :=
  let s1 := { s with
    isEmergencyStopped := false
    desiredAngles := s.jointAngles
    smoothedAngles := s.jointAngles }
  if s1.hasSocket = true ∧ s1.connectionStatus = ConnStatus.connected then
    if s1.sendOk = true then (s1, [Msg.pose s.jointAngles now])
    else ({ s1 with connectionStatus := ConnStatus.error }, [])
  else (s1, [])

/-- `sendProgramRun` of the smoothing variant: false unless a socket is
present and connected; a throwing send turns the status to `error` and
returns false.  It does not touch the gyro setting. -/
def sendProgramRun (s : CtrlState) (prog : ProgramRunPayload) (now : ℚ) :
    CtrlState × List Msg × Bool :=
  if ¬(s.hasSocket = true ∧ s.connectionStatus = ConnStatus.connected) then (s, [], false)
  else if s.sendOk = true then (s, [Msg.program prog now], true)
  else ({ s with connectionStatus := ConnStatus.error }, [], false)

/-- `sendProgramRun` of the direct-send variant (`src/unnamed/part_000`):
same transport behavior, but it disables the gyro before dispatching. -/
def sendProgramRunB (s : CtrlState) (prog : ProgramRunPayload) (now : ℚ) :
    CtrlState × List Msg × Bool :=
  if ¬(s.hasSocket = true ∧ s.connectionStatus = ConnStatus.connected) then (s, [], false)
  else
    let s1 := if s.gyroEnabled = true then { s with gyroEnabled := false } else s
    if s1.sendOk = true then (s1, [Msg.program prog now], true)
    else ({ s1 with connectionStatus := ConnStatus.error }, [], false)

/-- `getReconnectDelay` (identical in both variants):
`Math.min(1000 * Math.pow(2, attempt), 10000)`. -/
def getReconnectDelay (attempt : ℕ) : ℕ := min (1000 * 2 ^ attempt) 10000

/-- The target-angle computation of `applyGyro` in the smoothing variant:
span is the smaller of (max-home, home-min), the axis reading is
normalized by 90° and clamped to [-1,1], and the scale divisor is 90. -/
def gyroTarget (cfg : JointConfig) (gyroScale raw : ℚ) : ℚ :=
  let span := min (cfg.max - cfg.home) (cfg.home - cfg.min)
  let normalized := clamp (raw / 90) (-1) 1
  clamp (cfg.home + normalized * span * (gyroScale / 90)) cfg.min cfg.max

/-- The target-angle computation of `applyGyro` in the direct-send
variant: offset is normalized * (max-min) * 0.5 * (gyroScale/100). -/
def gyroTargetB (cfg : JointConfig) (gyroScale raw : ℚ) : ℚ :=
  let range := cfg.max - cfg.min
  let normalized := clamp (raw / 90) (-1) 1
  let scaledOffset := normalized * range * (1 / 2) * (gyroScale / 100)
  clamp (cfg.home + scaledOffset) cfg.min cfg.max

/-- The gyro target exactly as the claim words it with halfRange the
smaller of (max-home, home-min) and sensitivity divided by 100. -/
def claimGyroTargetNarrow (cfg : JointConfig) (sensitivity raw : ℚ) : ℚ :=
  clamp
    (cfg.home +
      clamp (raw / 90) (-1) 1 * min (cfg.max - cfg.home) (cfg.home - cfg.min) *
        (sensitivity / 100))
    cfg.min cfg.max

/-- The gyro target exactly as the claim words it with halfRange derived
from the full configured span (half of max-min) and sensitivity/100. -/
def claimGyroTargetSpan (cfg : JointConfig) (sensitivity raw : ℚ) : ℚ :=
  clamp
    (cfg.home +
      clamp (raw / 90) (-1) 1 * ((cfg.max - cfg.min) / 2) * (sensitivity / 100))
    cfg.min cfg.max

/-- The motion events of claim C1: slider updates, pose jumps, and
smoothing-loop ticks. -/
inductive Ev where
  | update (j : Joint) (angle : ℚ)
  | pose (p : JointMap (Option ℚ))
  | tick (now : ℚ)
deriving DecidableEq

def step (s : CtrlState) : Ev → CtrlState × List Msg
  | .update j a => (updateJoint s j a, [])
  | .pose p => (goToPose s p, [])
  | .tick now => smoothTick s now

def run (s : CtrlState) : List Ev → CtrlState × List Msg
  | [] => (s, [])
  | e :: rest =>
      let r1 := step s e
      let r2 := run r1.1 rest
      (r2.1, r1.2 ++ r2.2)

/-- `defaultConfigs` from the source. -/
def defaultConfigs : Configs :=
  ⟨⟨"Base", 0, 180, 90⟩, ⟨"Arm A", 20, 180, 180⟩, ⟨"Arm B", 0, 180, 180⟩,
    ⟨"Wrist A", 0, 180, 90⟩, ⟨"Wrist B", 0, 180, 90⟩, ⟨"Gripper", 100, 180, 180⟩⟩

/-- `defaultAngles` from the source (every joint at its home). -/
def defaultAngles : JointAngles := ⟨90, 180, 180, 90, 90, 180⟩

/-- Initial provider state of the smoothing variant (default settings:
smoothing enabled, factor 0.15, gyro off, no connection). -/
def initState : CtrlState where
  jointConfigs := defaultConfigs
  jointAngles := defaultAngles
  desiredAngles := defaultAngles
  smoothedAngles := defaultAngles
  isEmergencyStopped := false
  connectionStatus := .disconnected
  hasSocket := false
  sendOk := true
  lastSend := 0
  lastPayload := none
  smoothingEnabled := true
  smoothingFactor := 3 / 20
  gyroEnabled := false

/-- The default base joint configuration. -/
def baseCfg : JointConfig := ⟨"Base", 0, 180, 90⟩

/-- A pose argument whose base entry is the non-decimal value 10.55. -/
def c6Pose : JointMap (Option ℚ) := ⟨some (211 / 20), none, none, none, none, none⟩

/-- The claim scenario pose: only `{base: 999}` provided. -/
def c6ScenarioPose : JointMap (Option ℚ) := ⟨some 999, none, none, none, none, none⟩

/-- A connected state whose transport send fails. -/
def c8ErrState : CtrlState :=
  { initState with connectionStatus := .connected, hasSocket := true, sendOk := false }

/-- A connected state with the gyro enabled. -/
def c9State : CtrlState :=
  { initState with connectionStatus := .connected, hasSocket := true, gyroEnabled := true }

/-- A connected state with the gyro already off. -/
def c9OffState : CtrlState :=
  { initState with connectionStatus := .connected, hasSocket := true }

/-- A small program payload. -/
def prog0 : ProgramRunPayload := ⟨"p1", "Wave", [⟨0, defaultAngles⟩]⟩

/-- A connected state with the emergency-stop interlock engaged. -/
def stoppedConnState : CtrlState :=
  { initState with
      isEmergencyStopped := true
      connectionStatus := .connected
      hasSocket := true }

/-- Motion events fired while the interlock is engaged. -/
def c1Events : List Ev :=
  [.update .base 15, .tick 500, .pose ⟨some 42, none, none, none, none, none⟩, .tick 1000]

/-! ## Basic lemmas about the embedding -/

theorem JointMap.get_set {α : Type} (m : JointMap α) (j : Joint) (v : α) :
    (m.set j v).get j = v := by
  cases j <;> rfl

theorem JointMap.get_build {α : Type} (f : Joint → α) (j : Joint) :
    (JointMap.build f).get j = f j := by
  cases j <;> rfl

theorem clamp_le_right (v lo hi : ℚ) : clamp v lo hi ≤ hi := min_le_right _ _

theorem left_le_clamp (v : ℚ) {lo hi : ℚ} (h : lo ≤ hi) : lo ≤ clamp v lo hi :=
  le_min (le_max_right _ _) h

theorem clamp_of_le_of_le {v lo hi : ℚ} (h1 : lo ≤ v) (h2 : v ≤ hi) :
    clamp v lo hi = v := by
  unfold clamp
  rw [max_eq_left h1, min_eq_left h2]

theorem round1_mono {x y : ℚ} (h : x ≤ y) : round1 x ≤ round1 y := by
  unfold round1
  rw [round_eq, round_eq]
  have h10 : (10 : ℚ) * x + 1 / 2 ≤ 10 * y + 1 / 2 := by linarith
  have hc : ((⌊(10 : ℚ) * x + 1 / 2⌋ : ℤ) : ℚ) ≤ ((⌊(10 : ℚ) * y + 1 / 2⌋ : ℤ) : ℚ) := by
    exact_mod_cast Int.floor_mono h10
  linarith

theorem round1_decimal (k : ℤ) : round1 ((k : ℚ) / 10) = (k : ℚ) / 10 := by
  unfold round1
  have h : (10 : ℚ) * ((k : ℚ) / 10) = (k : ℚ) := by ring
  rw [h, round_intCast]

theorem round1_add_small (k : ℤ) (e : ℚ) (h1 : -(1 / 20) ≤ e) (h2 : e < 1 / 20) :
    round1 ((k : ℚ) / 10 + e) = (k : ℚ) / 10 := by
  unfold round1
  have h : (10 : ℚ) * ((k : ℚ) / 10 + e) = 10 * e + (k : ℚ) := by ring
  rw [h, round_add_int]
  have h0 : round ((10 : ℚ) * e) = 0 :=
    round_eq_zero_iff.mpr (Set.mem_Ico.mpr ⟨by linarith, by linarith⟩)
  rw [h0]
  push_cast
  ring

theorem round1_clamp_fix (lo hi x : ℚ) :
    round1 (clamp (round1 (clamp x lo hi)) lo hi) = round1 (clamp x lo hi) := by
  rcases le_or_lt lo hi with hlh | hhl
  · set c := clamp x lo hi with hc
    have hclo : lo ≤ c := left_le_clamp x hlh
    have hchi : c ≤ hi := clamp_le_right x lo hi
    set y := round1 c with hy
    have hyfix : round1 y = y := by
      have hrep : y = ((round (10 * c) : ℤ) : ℚ) / 10 := hy.trans rfl
      rw [hrep]
      exact round1_decimal _
    rcases lt_or_le y lo with h1 | h1
    · have h2 : clamp y lo hi = lo := by
        unfold clamp
        rw [max_eq_right h1.le, min_eq_left hlh]
      rw [h2]
      have ha : round1 lo ≤ y := by rw [hy]; exact round1_mono hclo
      have hb : y ≤ round1 lo := by
        have hm := round1_mono h1.le
        rwa [hyfix] at hm
      exact le_antisymm ha hb
    rcases le_or_lt y hi with h2 | h2
    · rw [clamp_of_le_of_le h1 h2, hyfix]
    · have h3 : clamp y lo hi = hi := by
        unfold clamp
        rw [max_eq_left h1, min_eq_right h2.le]
      rw [h3]
      have ha : y ≤ round1 hi := by rw [hy]; exact round1_mono hchi
      have hb : round1 hi ≤ y := by
        have hm := round1_mono h2.le
        rwa [hyfix] at hm
      exact le_antisymm hb ha
  · have hall : ∀ z : ℚ, clamp z lo hi = hi := fun z => by
      unfold clamp
      exact min_eq_right (le_trans hhl.le (le_max_right z lo))
    rw [hall, hall]

/-! ## Claim theorems -/

/-- C3: the reconnect delay for consecutive failures starting at attempt 0
is exactly 1000, 2000, 4000, 8000, then 10000 forever; in general
delay(n) = min(1000 * 2^n, 10000) milliseconds. -/
theorem reconnectDelay_sequence :
    getReconnectDelay 0 = 1000 ∧ getReconnectDelay 1 = 2000 ∧
    getReconnectDelay 2 = 4000 ∧ getReconnectDelay 3 = 8000 ∧
    (∀ n : ℕ, 4 ≤ n → getReconnectDelay n = 10000) ∧
    (∀ n : ℕ, getReconnectDelay n = min (1000 * 2 ^ n) 10000) := by
  refine ⟨by decide, by decide, by decide, by decide, ?_, fun n => rfl⟩
  intro n hn
  unfold getReconnectDelay
  have h16 : (16 : ℕ) ≤ 2 ^ n := by
    calc (16 : ℕ) = 2 ^ 4 := by norm_num
    _ ≤ 2 ^ n := Nat.pow_le_pow_right (by norm_num) hn
  have hcap : (10000 : ℕ) ≤ 1000 * 2 ^ n :=
    le_trans (by norm_num) (Nat.mul_le_mul_left 1000 h16)
  exact Nat.min_eq_right hcap

/-- Witness for C3 at a concrete capped attempt. -/
theorem reconnectDelay_sequence_witness : 4 ≤ 6 ∧ getReconnectDelay 6 = 10000 :=
  ⟨by decide, reconnectDelay_sequence.2.2.2.2.1 6 (by decide)⟩

/-- C4: after any `setJointConfig` call, the stored config satisfies
min ≤ home, home ≤ max and min ≤ max. -/
theorem setJointConfig_invariant (cfgs : Configs) (j : Joint) (patch : ConfigPatch) :
    ((setJointConfig cfgs j patch).get j).min ≤ ((setJointConfig cfgs j patch).get j).home ∧
    ((setJointConfig cfgs j patch).get j).home ≤ ((setJointConfig cfgs j patch).get j).max ∧
    ((setJointConfig cfgs j patch).get j).min ≤ ((setJointConfig cfgs j patch).get j).max := by
  simp only [setJointConfig, JointMap.get_set]
  exact ⟨left_le_clamp _ min_le_max, clamp_le_right _ _ _, min_le_max⟩

/-- C5: after `updateJoint(j, angle)`, both the UI-facing angle and the
desired target for j equal round1(clamp(angle, min(j), max(j))). -/
theorem updateJoint_observed (s : CtrlState) (j : Joint) (angle : ℚ) :
    (updateJoint s j angle).jointAngles.get j =
      round1 (clamp angle (s.jointConfigs.get j).min (s.jointConfigs.get j).max) ∧
    (updateJoint s j angle).desiredAngles.get j =
      round1 (clamp angle (s.jointConfigs.get j).min (s.jointConfigs.get j).max) := by
  constructor <;> simp [updateJoint, JointMap.get_set]

/-- C10: `updateJoint` is idempotent — a second identical call leaves the
whole controller state unchanged — and round1 ∘ clamp is a fixed point on
its own output. -/
theorem updateJoint_idempotent (s : CtrlState) (j : Joint) (a lo hi x : ℚ) :
    updateJoint (updateJoint s j a) j a = updateJoint s j a ∧
    round1 (clamp (round1 (clamp x lo hi)) lo hi) = round1 (clamp x lo hi) := by
  refine ⟨?_, round1_clamp_fix lo hi x⟩
  cases j <;> rfl

/-- C2 counterexample: with smoothing enabled, factor 0.15 ∈ (0,1), target
D = 0.6 and smoothed S = 0.5 (|D-S| = 0.1 ≥ 0.01), one tick does not
produce S + (D-S)·f = 0.515 — the `toFixed(1)` rounding maps it back to
0.5. -/
theorem tick_formula_counterexample :
    (0 : ℚ) < 3 / 20 ∧ (3 : ℚ) / 20 < 1 ∧ (1 : ℚ) / 100 ≤ |(3 : ℚ) / 5 - 1 / 2| ∧
    tickJoint true (3 / 20) (3 / 5) (1 / 2) ≠ 1 / 2 + ((3 : ℚ) / 5 - 1 / 2) * (3 / 20) := by
  have habs : |(3 : ℚ) / 5 - 1 / 2| = 1 / 10 := by
    rw [show (3 : ℚ) / 5 - 1 / 2 = 1 / 10 by norm_num]
    exact abs_of_pos (by norm_num)
  have heval : tickJoint true (3 / 20) (3 / 5) (1 / 2) = 1 / 2 := by
    simp only [tickJoint]
    rw [habs, if_neg (by norm_num), if_pos ⟨by simp, by norm_num⟩]
    rw [show (1 : ℚ) / 2 + ((3 : ℚ) / 5 - 1 / 2) * (3 / 20) = 103 / 200 by norm_num]
    unfold round1
    rw [show (10 : ℚ) * (103 / 200) = 103 / 20 by norm_num, round_eq,
      show (103 : ℚ) / 20 + 1 / 2 = 113 / 20 by norm_num,
      show ⌊(113 : ℚ) / 20⌋ = 5 by norm_num]
    norm_num
  refine ⟨by norm_num, by norm_num, by rw [habs]; norm_num, ?_⟩
  rw [heval]
  norm_num

/-- C2 (amended): one smoothing tick with smoothing enabled, factor
f ∈ (0,1) and |D-S| ≥ 0.01 produces `smoothed' = round1(S + (D-S)·f)`;
iteration with D held fixed need not converge within 0.01 of D — whenever
S is a one-decimal multiple and the increment (D-S)·f lies in
[-0.05, 0.05), the tick is the identity, so every iterate stays at S and
the distance to D never drops below 0.01. -/
theorem tick_formula_and_stall (f D S : ℚ) (n : ℕ)
    (hf0 : 0 < f) (hf1 : f < 1) (hfar : 1 / 100 ≤ |D - S|) :
    tickJoint true f D S = round1 (S + (D - S) * f) ∧
    ((∃ k : ℤ, S = (k : ℚ) / 10) → -(1 / 20) ≤ (D - S) * f → (D - S) * f < 1 / 20 →
      tickIter true f D n S = S ∧ 1 / 100 ≤ |D - tickIter true f D n S|) := by
  have hone : tickJoint true f D S = round1 (S + (D - S) * f) := by
    simp only [tickJoint]
    rw [if_neg (by rw [not_lt]; exact hfar), if_pos ⟨by simp, hf1⟩]
  refine ⟨hone, ?_⟩
  rintro ⟨k, hk⟩ hlow hhigh
  have hfix : tickJoint true f D S = S := by
    rw [hk] at hone hlow hhigh ⊢
    rw [hone]
    exact round1_add_small k _ hlow hhigh
  have hiter : tickIter true f D n S = S := by
    induction n with
    | zero => rfl
    | succ m ih =>
        simp only [tickIter]
        rw [hfix]
        exact ih
  refine ⟨hiter, ?_⟩
  rw [hiter]
  exact hfar

/-- Witness for C2 at f = 0.15, D = 0.6, S = 0.5, seven ticks. -/
theorem tick_formula_and_stall_witness :
    tickJoint true (3 / 20) (3 / 5) (1 / 2) =
      round1 (1 / 2 + ((3 : ℚ) / 5 - 1 / 2) * (3 / 20)) ∧
    tickIter true (3 / 20) (3 / 5) 7 (1 / 2) = 1 / 2 := by
  have h := tick_formula_and_stall (3 / 20) (3 / 5) (1 / 2) 7 (by norm_num) (by norm_num)
    (by rw [show (3 : ℚ) / 5 - 1 / 2 = 1 / 10 by norm_num, abs_of_pos] <;> norm_num)
  exact ⟨h.1, (h.2 ⟨5, by norm_num⟩ (by norm_num) (by norm_num)).1⟩

/-- C7 counterexample: for the default base config (min 0, max 180,
home 90), sensitivity 70 and a 90° axis reading, the smoothing variant's
`applyGyro` target is 160, matching neither claim reading of
`home + normalized * halfRange * (sensitivity/100)` (both give 153 after
clamping). -/
theorem gyro_scale_counterexample :
    gyroTarget baseCfg 70 90 ≠ claimGyroTargetNarrow baseCfg 70 90 ∧
    gyroTarget baseCfg 70 90 ≠ claimGyroTargetSpan baseCfg 70 90 := by
  have h1 : gyroTarget baseCfg 70 90 = 160 := by
    norm_num [gyroTarget, baseCfg, clamp, min_def, max_def]
  have h2 : claimGyroTargetNarrow baseCfg 70 90 = 153 := by
    norm_num [claimGyroTargetNarrow, baseCfg, clamp, min_def, max_def]
  have h3 : claimGyroTargetSpan baseCfg 70 90 = 153 := by
    norm_num [claimGyroTargetSpan, baseCfg, clamp, min_def, max_def]
  exact ⟨by rw [h1, h2]; norm_num, by rw [h1, h3]; norm_num⟩

/-- C7 (amended): the direct-send variant computes exactly
`clamp(home + normalized * ((max-min)/2) * (sensitivity/100), min, max)`;
the smoothing variant uses divisor 90 instead of 100 with the narrow
half-range, i.e. it equals the claim's narrow formula with the
sensitivity inflated by 10/9. -/
theorem gyro_mapping_formulas (cfg : JointConfig) (sensitivity raw : ℚ) :
    gyroTargetB cfg sensitivity raw = claimGyroTargetSpan cfg sensitivity raw ∧
    gyroTarget cfg sensitivity raw =
      claimGyroTargetNarrow cfg (sensitivity * (10 / 9)) raw := by
  constructor
  · simp only [gyroTargetB, claimGyroTargetSpan]
    have h : cfg.home + clamp (raw / 90) (-1) 1 * (cfg.max - cfg.min) * (1 / 2) *
          (sensitivity / 100) =
        cfg.home + clamp (raw / 90) (-1) 1 * ((cfg.max - cfg.min) / 2) *
          (sensitivity / 100) := by
      ring
    rw [h]
  · simp only [gyroTarget, claimGyroTargetNarrow]
    have h : cfg.home + clamp (raw / 90) (-1) 1 *
          min (cfg.max - cfg.home) (cfg.home - cfg.min) * (sensitivity / 90) =
        cfg.home + clamp (raw / 90) (-1) 1 *
          min (cfg.max - cfg.home) (cfg.home - cfg.min) *
          (sensitivity * (10 / 9) / 100) := by
      ring
    rw [h]

/-- C6 counterexample: `goToPose` with a provided finite base value of
10.55 (base bounds [0,180]) does not apply the clamped value 10.55 — it
stores the one-decimal rounding 10.6. -/
theorem goToPose_counterexample :
    (goToPose initState c6Pose).desiredAngles.get Joint.base ≠
      clamp (211 / 20) (initState.jointConfigs.get Joint.base).min
        (initState.jointConfigs.get Joint.base).max := by
  have h1 : (goToPose initState c6Pose).desiredAngles.get Joint.base =
      round1 (clamp (211 / 20) 0 180) := rfl
  have h2 : clamp ((211 : ℚ) / 20) 0 180 = 211 / 20 :=
    clamp_of_le_of_le (by norm_num) (by norm_num)
  have h3 : round1 ((211 : ℚ) / 20) = 53 / 5 := by
    unfold round1
    rw [show (10 : ℚ) * (211 / 20) = 211 / 2 by norm_num, round_eq,
      show (211 : ℚ) / 2 + 1 / 2 = 106 by norm_num,
      show ⌊(106 : ℚ)⌋ = 106 by norm_num]
    norm_num
  have h4 : (initState.jointConfigs.get Joint.base).min = 0 := rfl
  have h5 : (initState.jointConfigs.get Joint.base).max = 180 := rfl
  rw [h1, h2, h3, h4, h5, h2]
  norm_num

/-- C6 (amended): `goToPose` applies, per joint, the one-decimal rounding
of the clamp of the provided value (when finite) or of the existing
desired value; the UI-facing state gets the same pose.  An omitted joint
retains its prior desired value exactly when that value is a one-decimal
multiple within bounds, and `goToPose({base: 999})` with base bounds
[0,180] yields exactly 180. -/
theorem goToPose_spec (s : CtrlState) (pose : JointMap (Option ℚ)) (j : Joint) :
    (goToPose s pose).desiredAngles.get j =
      round1 (clamp ((pose.get j).getD (s.desiredAngles.get j))
        (s.jointConfigs.get j).min (s.jointConfigs.get j).max) ∧
    (goToPose s pose).jointAngles.get j = (goToPose s pose).desiredAngles.get j ∧
    (pose.get j = none → (∃ k : ℤ, s.desiredAngles.get j = (k : ℚ) / 10) →
      (s.jointConfigs.get j).min ≤ s.desiredAngles.get j →
      s.desiredAngles.get j ≤ (s.jointConfigs.get j).max →
      (goToPose s pose).desiredAngles.get j = s.desiredAngles.get j) ∧
    (pose.get j = some 999 → (s.jointConfigs.get j).min = 0 →
      (s.jointConfigs.get j).max = 180 →
      (goToPose s pose).desiredAngles.get j = 180) := by
  have hbase : (goToPose s pose).desiredAngles.get j =
      round1 (clamp ((pose.get j).getD (s.desiredAngles.get j))
        (s.jointConfigs.get j).min (s.jointConfigs.get j).max) := by
    simp only [goToPose, JointMap.get_build]
  refine ⟨hbase, rfl, ?_, ?_⟩
  · rintro hnone ⟨k, hk⟩ hlo hhi
    rw [hbase, hnone]
    simp only [Option.getD_none]
    rw [clamp_of_le_of_le hlo hhi, hk]
    exact round1_decimal k
  · intro hsome hlo hhi
    rw [hbase, hsome]
    simp only [Option.getD_some]
    rw [hlo, hhi]
    have hc : clamp (999 : ℚ) 0 180 = 180 := by
      unfold clamp
      rw [max_eq_left (by norm_num), min_eq_right (by norm_num)]
    rw [hc, show (180 : ℚ) = ((1800 : ℤ) : ℚ) / 10 by norm_num, round1_decimal]

/-- Witness for C6: with the default state, `goToPose({base: 999})`
yields base 180 and the omitted armA joint retains its desired 180. -/
theorem goToPose_spec_witness :
    (goToPose initState c6ScenarioPose).desiredAngles.get Joint.armA =
      initState.desiredAngles.get Joint.armA ∧
    (goToPose initState c6ScenarioPose).desiredAngles.get Joint.base = 180 :=
  ⟨(goToPose_spec initState c6ScenarioPose Joint.armA).2.2.1 rfl
      ⟨1800, by norm_num [initState, defaultAngles, JointMap.get]⟩
      (by norm_num [initState, defaultAngles, defaultConfigs, JointMap.get])
      (by norm_num [initState, defaultAngles, defaultConfigs, JointMap.get]),
    (goToPose_spec initState c6ScenarioPose Joint.base).2.2.2 rfl rfl rfl⟩

theorem sendPayload_gyro (s : CtrlState) (angles : JointAngles) (now : ℚ) :
    (sendPayload s angles now).1.gyroEnabled = s.gyroEnabled := by
  simp only [sendPayload]
  split_ifs <;> rfl

theorem smoothTick_gyro (s : CtrlState) (now : ℚ) :
    (smoothTick s now).1.gyroEnabled = s.gyroEnabled := by
  simp only [smoothTick]
  split_ifs <;> simp [sendPayload_gyro]

theorem step_gyro (s : CtrlState) (e : Ev) :
    (step s e).1.gyroEnabled = s.gyroEnabled := by
  cases e with
  | update j a => rfl
  | pose p => rfl
  | tick now => exact smoothTick_gyro s now

theorem run_gyro (s : CtrlState) (evs : List Ev) :
    (run s evs).1.gyroEnabled = s.gyroEnabled := by
  induction evs generalizing s with
  | nil => rfl
  | cons e rest ih => exact (ih (step s e).1).trans (step_gyro s e)

theorem step_stopped (s : CtrlState) (e : Ev) (h : s.isEmergencyStopped = true) :
    (step s e).2 = [] ∧ (step s e).1.isEmergencyStopped = true ∧
    (step s e).1.hasSocket = s.hasSocket ∧
    (step s e).1.connectionStatus = s.connectionStatus ∧
    (step s e).1.sendOk = s.sendOk := by
  cases e with
  | update j a => exact ⟨rfl, h, rfl, rfl, rfl⟩
  | pose p => exact ⟨rfl, h, rfl, rfl, rfl⟩
  | tick now =>
      simp only [step, smoothTick, h]
      simp [h]

theorem run_stopped (s : CtrlState) (evs : List Ev) (h : s.isEmergencyStopped = true) :
    (run s evs).2 = [] ∧ (run s evs).1.isEmergencyStopped = true ∧
    (run s evs).1.hasSocket = s.hasSocket ∧
    (run s evs).1.connectionStatus = s.connectionStatus ∧
    (run s evs).1.sendOk = s.sendOk := by
  induction evs generalizing s with
  | nil => exact ⟨rfl, h, rfl, rfl, rfl⟩
  | cons e rest ih =>
      obtain ⟨h1, h2, h3, h4, h5⟩ := step_stopped s e h
      obtain ⟨g1, g2, g3, g4, g5⟩ := ih (step s e).1 h2
      refine ⟨?_, g2, g3.trans h3, g4.trans h4, g5.trans h5⟩
      show (step s e).2 ++ (run (step s e).1 rest).2 = []
      rw [h1, g1]
      rfl

/-- C1: while the interlock is engaged, any sequence of `updateJoint`,
`goToPose` and smoothing-loop tick events delivers no message to the
transport; and (when a connected socket is present and its send succeeds)
the first message after `resumeAfterStop` is exactly the current pose —
the six current joint angles plus the timestamp. -/
theorem estop_blocks_until_resume (s : CtrlState) (evs : List Ev) (now : ℚ)
    (hstop : s.isEmergencyStopped = true) :
    (run s evs).2 = [] ∧
    (s.hasSocket = true → s.connectionStatus = ConnStatus.connected → s.sendOk = true →
      (resumeAfterStop (run s evs).1 now).2 =
        [Msg.pose (run s evs).1.jointAngles now]) := by
  obtain ⟨h1, h2, h3, h4, h5⟩ := run_stopped s evs hstop
  refine ⟨h1, fun hs hc hk => ?_⟩
  simp only [resumeAfterStop]
  rw [if_pos ⟨h3.trans hs, h4.trans hc⟩, if_pos (h5.trans hk)]

/-- Witness for C1: a stopped, connected state with slider, pose and two
tick events, then resume at time 2000. -/
theorem estop_blocks_until_resume_witness :
    stoppedConnState.isEmergencyStopped = true ∧
    (run stoppedConnState c1Events).2 = [] ∧
    (resumeAfterStop (run stoppedConnState c1Events).1 2000).2 =
      [Msg.pose (run stoppedConnState c1Events).1.jointAngles 2000] :=
  ⟨rfl, (estop_blocks_until_resume stoppedConnState c1Events 2000 rfl).1,
    (estop_blocks_until_resume stoppedConnState c1Events 2000 rfl).2 rfl rfl rfl⟩

/-- C8 counterexample: in a disconnected state (past the stop and
rate-limit early returns) `sendPayload` is not a no-op — it still
records the payload (and refreshes the rate-limit timestamp). -/
theorem send_noop_counterexample :
    initState.connectionStatus ≠ ConnStatus.connected ∧
    (sendPayload initState defaultAngles 200).1.lastPayload ≠ initState.lastPayload := by
  constructor
  · intro h
    exact ConnStatus.noConfusion h
  · have h : (sendPayload initState defaultAngles 200).1.lastPayload =
        some (Msg.pose defaultAngles 200) := by
      simp only [sendPayload]
      rw [if_neg (by simp [initState]), if_neg (by norm_num [initState]),
        if_neg (by simp [initState])]
    rw [h]
    simp [initState]

/-- C8 (amended): unless the state is `connected`, `sendPayload` delivers
nothing to the transport and leaves the connection state unchanged (it
never throws — the embedding is total — though outside the early returns
it still records the payload); a transport-level send failure while
connected delivers nothing and transitions the state to `error` instead
of propagating an exception. -/
theorem send_transport_behavior (s : CtrlState) (angles : JointAngles) (now : ℚ) :
    (s.connectionStatus ≠ ConnStatus.connected →
      (sendPayload s angles now).2 = [] ∧
      (sendPayload s angles now).1.connectionStatus = s.connectionStatus) ∧
    (s.connectionStatus = ConnStatus.connected → s.hasSocket = true → s.sendOk = false →
      s.isEmergencyStopped = false → 100 ≤ now - s.lastSend →
      (sendPayload s angles now).2 = [] ∧
      (sendPayload s angles now).1.connectionStatus = ConnStatus.error) := by
  constructor
  · intro hne
    simp only [sendPayload]
    split_ifs with h1 h2 h3 h4
    · exact ⟨rfl, rfl⟩
    · exact ⟨rfl, rfl⟩
    · exact absurd h3.2 hne
    · exact absurd h3.2 hne
    · exact ⟨rfl, rfl⟩
  · intro hc hs hk hstop hrate
    simp only [sendPayload]
    rw [if_neg (by simp [hstop]), if_neg (not_lt.mpr hrate), if_pos ⟨hs, hc⟩,
      if_neg (by simp [hk])]
    exact ⟨rfl, rfl⟩

/-- Witness for C8: the disconnected branch at the initial state and the
failing-send branch at a connected state whose transport throws. -/
theorem send_transport_behavior_witness :
    ((sendPayload initState defaultAngles 200).2 = [] ∧
      (sendPayload initState defaultAngles 200).1.connectionStatus =
        initState.connectionStatus) ∧
    ((sendPayload c8ErrState defaultAngles 200).2 = [] ∧
      (sendPayload c8ErrState defaultAngles 200).1.connectionStatus =
        ConnStatus.error) :=
  ⟨(send_transport_behavior initState defaultAngles 200).1
      (fun h => ConnStatus.noConfusion h),
    (send_transport_behavior c8ErrState defaultAngles 200).2 rfl rfl rfl rfl
      (by norm_num : (100 : ℚ) ≤ 200 - 0)⟩

/-- C9 counterexample: in the smoothing variant, `sendProgramRun`
succeeds while connected with the gyro enabled, yet `gyroEnabled`
remains true afterwards. -/
theorem programRun_gyro_counterexample :
    c9State.gyroEnabled = true ∧
    (sendProgramRun c9State prog0 5).2.2 = true ∧
    (sendProgramRun c9State prog0 5).1.gyroEnabled = true := by
  refine ⟨rfl, ?_, ?_⟩ <;> simp [sendProgramRun, c9State, initState]

/-- C9 (amended): in the direct-send variant, any `sendProgramRun`
attempt while a connected socket is present disables the gyro as part of
the dispatch; in the smoothing variant `sendProgramRun` leaves
`gyroEnabled` unchanged; and in neither case is the gyro automatically
re-enabled — motion events preserve `gyroEnabled = false`. -/
theorem programRun_gyro_policy (s : CtrlState) (prog : ProgramRunPayload) (now : ℚ)
    (evs : List Ev)
    (hs : s.hasSocket = true) (hc : s.connectionStatus = ConnStatus.connected) :
    (sendProgramRunB s prog now).1.gyroEnabled = false ∧
    (sendProgramRun s prog now).1.gyroEnabled = s.gyroEnabled ∧
    (s.gyroEnabled = false → (run s evs).1.gyroEnabled = false) := by
  refine ⟨?_, ?_, fun hg => (run_gyro s evs).trans hg⟩
  · simp only [sendProgramRunB]
    rw [if_neg (by simp [hs, hc])]
    cases hg : s.gyroEnabled <;> cases hk : s.sendOk <;>
      simp [hg, hk]
  · simp only [sendProgramRun]
    split_ifs <;> rfl

/-- Witness for C9: dispatch from a connected gyro-on state in both
variants, and event preservation from a connected gyro-off state. -/
theorem programRun_gyro_policy_witness :
    (sendProgramRunB c9State prog0 5).1.gyroEnabled = false ∧
    (sendProgramRun c9State prog0 5).1.gyroEnabled = c9State.gyroEnabled ∧
    (run c9OffState c1Events).1.gyroEnabled = false :=
  ⟨(programRun_gyro_policy c9State prog0 5 c1Events rfl rfl).1,
    (programRun_gyro_policy c9State prog0 5 c1Events rfl rfl).2.1,
    (programRun_gyro_policy c9OffState prog0 5 c1Events rfl rfl).2.2 rfl⟩
